import Mathlib

/-!
Verification of the podcast-generation service (`app/` of the repository)
against its natural-language specification.

The development shallowly embeds the Python modules the claims are about:

* `app/services/tts_service.py`        — `TTSService.generate_audio`, `_clean_text`
* `app/podcast/text_to_speech.py`      — `ScriptParser.parse_script`,
  `TTSClient.synthesize_speech` (retry loop), `VoiceManager.recommend_voices`,
  `AudioProcessor.process_segments`, `AudioProcessor._combine_audio_segments`
* `app/tasks/podcast_tasks.py`         — `generate_podcast_script`,
  `generate_podcast_audio` (Celery job bodies with their `except` boundaries)
* `app/api/tasks.py`                   — `cancel_task`, `get_task_status`

External collaborators (Google TTS, arXiv, Gemini, storage, the database
session) are modelled as explicit function/state parameters; audio buffers are
modelled by their duration in milliseconds, which is the only attribute the
claims mention.  Exceptions are modelled with `Except`/`Option`.
-/

namespace Fionntan

/-! ## Python string primitives

Python 3's `str.strip()` strips every Unicode whitespace character (the
characters for which `str.isspace()` holds): the ASCII controls
U+0009–U+000D and U+001C–U+001F, the space U+0020, NEL U+0085, NBSP U+00A0,
Ogham space mark U+1680, the spaces U+2000–U+200A, the line and paragraph
separators U+2028/U+2029, narrow NBSP U+202F, medium mathematical space
U+205F and ideographic space U+3000.  The regex
`re.sub(r'(\*{1,2}|_{1,2}|[\[\]\(\)])', '', text)` of
`TTSService._clean_text` deletes every occurrence of the six characters
`*`, `_`, `[`, `]`, `(`, `)` and nothing else (runs of one or two `*`/`_`
are matched greedily, so all of them are consumed). -/

def isPySpace (c : Char) : Bool :=
  let n := c.toNat
  (0x09 ≤ n && n ≤ 0x0d) || n = 0x20 || (0x1c ≤ n && n ≤ 0x1f) ||
    n = 0x85 || n = 0xa0 || n = 0x1680 ||
    (0x2000 ≤ n && n ≤ 0x200a) || n = 0x2028 || n = 0x2029 ||
    n = 0x202f || n = 0x205f || n = 0x3000

/-- Python `str.strip()` on the characters of a string. -/
def pyStripChars (l : List Char) : List Char :=
  ((l.dropWhile isPySpace).reverse.dropWhile isPySpace).reverse

def pyStrip (s : String) : String :=
  String.mk (pyStripChars s.data)

/-- Characters deleted by `TTSService._clean_text`'s regex. -/
def isMarkupChar (c : Char) : Bool :=
  c = '*' || c = '_' || c = '[' || c = ']' || c = '(' || c = ')'

/-- `TTSService._clean_text`: remove markdown/bracket characters, then strip. -/
def clean_text (s : String) : String :=
  pyStrip (String.mk (s.data.filter (fun c => !isMarkupChar c)))

/-! ## Script data model (`script_content` JSON consumed by both renderers) -/

structure Segment where
  speaker : String
  text : String
deriving DecidableEq, Repr

structure Sectn where
  title : String
  segments : List Segment
deriving DecidableEq, Repr

structure Script where
  title : String
  sections : List Sectn
deriving DecidableEq, Repr

/-- All segments of a script in spoken order. -/
def Script.allSegments (s : Script) : List Segment :=
  s.sections.flatMap Sectn.segments

/-- Append one extra segment at the end of a script (as a new final section;
`TTSService.generate_audio` only looks at the flattened segment order, for
which this is the general "append a segment" operation). -/
def Script.snocSegment (s : Script) (sg : Segment) : Script :=
  { s with sections := s.sections ++ [⟨"", [sg]⟩] }

/-- A segment survives `TTSService.generate_audio`'s two skip checks
(`if not text: continue` and `if not cleaned_text: continue`). -/
def Segment.keeps (sg : Segment) : Bool :=
  sg.text ≠ "" && clean_text sg.text ≠ ""

/-! ## `TTSService.generate_audio` (`app/services/tts_service.py`)

`synth t spk` stands for `_synthesize_speech(cleaned_text, speaker)` and
returns the duration (ms) of the returned MP3 bytes, or an error (the Python
method re-raises any synthesis exception).  Each surviving segment appends its
speech audio followed by a 500 ms pause (`AudioSegment.silent(duration=500)`);
concatenation adds durations.  An empty `audio_segments` list raises
`ValueError("No audio segments generated")`; any synthesis error propagates
out of `generate_audio`. -/

def gatherDurs (synth : String → String → Except String ℕ) :
    List Segment → Except String (List ℕ)
  | [] => .ok []
  | sg :: rest =>
    if sg.text = "" then gatherDurs synth rest
    else if clean_text sg.text = "" then gatherDurs synth rest
    else
      match synth (clean_text sg.text) sg.speaker with
      | .error e => .error e
      | .ok d =>
        match gatherDurs synth rest with
        | .error e => .error e
        | .ok ds => .ok ((d + 500) :: ds)

/-- Duration (ms) of the MP3 buffer returned by `TTSService.generate_audio`,
or the raised error. -/
def generate_audio (synth : String → String → Except String ℕ)
    (script : Script) : Except String ℕ :=
  match gatherDurs synth script.allSegments with
  | .error e => .error e
  | .ok [] => .error "No audio segments generated"
  | .ok ds => .ok ds.sum

/-! Basic sanity lemmas about `gatherDurs`. -/

theorem gatherDurs_append (synth : String → String → Except String ℕ)
    (l₁ l₂ : List Segment) :
    gatherDurs synth (l₁ ++ l₂) =
      (gatherDurs synth l₁).bind fun a =>
        (gatherDurs synth l₂).map fun b => a ++ b := by
  induction l₁ with
  | nil =>
    cases h : gatherDurs synth l₂ <;>
      simp [gatherDurs, Except.bind, Except.map, h]
  | cons sg rest ih =>
    by_cases h1 : sg.text = ""
    · simpa [gatherDurs, h1] using ih
    · by_cases h2 : clean_text sg.text = ""
      · simpa [gatherDurs, h1, h2] using ih
      · simp only [List.cons_append, gatherDurs, List.append_eq, h1, h2,
          if_false, ite_false, ih]
        cases synth (clean_text sg.text) sg.speaker with
        | error e => rfl
        | ok d =>
          cases gatherDurs synth rest with
          | error e => rfl
          | ok a =>
            cases gatherDurs synth l₂ <;> rfl

theorem gatherDurs_ok_of_total (synth : String → String → Except String ℕ)
    (h : ∀ t s, ∃ d, synth t s = .ok d) (l : List Segment) :
    ∃ ds, gatherDurs synth l = .ok ds := by
  induction l with
  | nil => exact ⟨[], rfl⟩
  | cons sg rest ih =>
    obtain ⟨ds, hds⟩ := ih
    by_cases h1 : sg.text = ""
    · exact ⟨ds, by simp [gatherDurs, h1, hds]⟩
    · by_cases h2 : clean_text sg.text = ""
      · exact ⟨ds, by simp [gatherDurs, h1, h2, hds]⟩
      · obtain ⟨d, hd⟩ := h (clean_text sg.text) sg.speaker
        exact ⟨(d + 500) :: ds, by simp [gatherDurs, h1, h2, hd, hds]⟩

/-! ## `ScriptParser.parse_script` (`app/podcast/text_to_speech.py`)

Plan items as built by `parse_script`.  Durations are in milliseconds
(the Python floats `1.0` and `0.5` seconds).  The SSML text transformation
`_enhance_with_ssml` is taken as an explicit function parameter `enhance`
(its output string is threaded through unchanged; none of the claims depend
on its content, only on the plan's structure). -/

inductive PlanItem where
  | speech (speaker text : String) (ssml : Bool) (sectionTitle : String)
  | pause (durationMs : ℕ) (sectionBreak : Bool) (sectionTitle : String)
deriving DecidableEq, Repr

/-- The plan items contributed by one section's segment list: each segment
whose text does not strip to empty yields a `speech` item followed by a
0.5 s `pause`; blank segments are skipped (`if not text.strip(): continue`). -/
def segItems (enhance : String → String → String) (enableSsml : Bool)
    (sectionTitle : String) : List Segment → List PlanItem
  | [] => []
  | sg :: rest =>
    if pyStrip sg.text = "" then segItems enhance enableSsml sectionTitle rest
    else
      .speech sg.speaker.toLower
          (if enableSsml then enhance sg.text sg.speaker.toLower else sg.text)
          enableSsml sectionTitle
        :: .pause 500 false ""
        :: segItems enhance enableSsml sectionTitle rest

/-- Fold over the sections carrying the accumulated plan `acc`; a 1 s
section-break pause is appended before a section whenever the accumulated
plan is non-empty (`if len(segments) > 0`). -/
def parseSecs (enhance : String → String → String) (enableSsml : Bool) :
    List PlanItem → List Sectn → List PlanItem
  | acc, [] => acc
  | acc, sec :: rest =>
    let acc1 := if acc.isEmpty then acc else acc ++ [.pause 1000 true sec.title]
    parseSecs enhance enableSsml
      (acc1 ++ segItems enhance enableSsml sec.title sec.segments) rest

/-- `ScriptParser.parse_script`: episode title and flattened plan. -/
def parse_script (enhance : String → String → String) (enableSsml : Bool)
    (script : Script) : String × List PlanItem :=
  (script.title, parseSecs enhance enableSsml [] script.sections)

/-! ## `TTSClient.synthesize_speech` retry loop

`op n` is the outcome of the `n`-th call (0-based) to the Google TTS API:
success with audio bytes (modelled by their duration), a
`GoogleAPIError`/`RetryError` (caught and retried), or any other exception
(re-raised immediately).  The loop `while retries < self.MAX_RETRIES` is
modelled with fuel `MAX_RETRIES - retries`; the first component of the
result counts how many times `op` was invoked. -/

inductive SynthResult where
  | success (audio : ℕ)
  | apiError (msg : String)
  | otherError (msg : String)
deriving DecidableEq, Repr

def exhaustedMsg : String := "Failed to synthesize speech after maximum retries"

def synthLoop (op : ℕ → SynthResult) (calls : ℕ) : ℕ → ℕ × Except String ℕ
  | 0 => (calls, .error exhaustedMsg)
  | fuel + 1 =>
    match op calls with
    | .success a => (calls + 1, .ok a)
    | .apiError _ => synthLoop op (calls + 1) fuel
    | .otherError e => (calls + 1, .error e)

def MAX_RETRIES : ℕ := 3

/-- `TTSClient.synthesize_speech`, abstracted over the API call outcomes. -/
def synthesize_speech (op : ℕ → SynthResult) : ℕ × Except String ℕ :=
  synthLoop op 0 MAX_RETRIES

/-! ## `AudioProcessor.process_segments` and `_combine_audio_segments`

`synth txt spk ssml` is `tts_client.synthesize_speech` for one segment after
its internal retries: `some d` on success (audio of duration `d` ms written
to a file), `none` when the exception survives and the segment is skipped
(`except ... # Continue with other segments`).  Pause items always export a
silence file.  Mixing transforms (silence trimming, normalization,
compression, background music) change audio contents only, never which items
appear or their order, so output items carry no further audio data. -/

inductive AudioFile where
  | speech (speaker sectionTitle : String) (durMs : ℕ)
  | pause (durMs : ℕ) (sectionBreak : Bool) (sectionTitle : String)
deriving DecidableEq, Repr

def process_segments (synth : String → String → Bool → Option ℕ)
    (hasVoice : String → Bool) : List PlanItem → List AudioFile
  | [] => []
  | .speech spk txt ssml sec :: rest =>
    if hasVoice spk then
      match synth txt spk ssml with
      | some d => .speech spk sec d :: process_segments synth hasVoice rest
      | none => process_segments synth hasVoice rest
    else process_segments synth hasVoice rest
  | .pause d sb st :: rest => .pause d sb st :: process_segments synth hasVoice rest

/-- Items of the combined output buffer, in order. -/
inductive OutItem where
  | jingle
  | speech (speaker : String)
  | pause (durMs : ℕ)
  | transition
deriving DecidableEq, Repr

/-- The per-file loop of `_combine_audio_segments`: a section-break pause at
index `i` (over the loaded file list of length `total`) is replaced by a
transition when `add_transitions and i > 0 and i < len(segments) - 1`;
otherwise every file is appended as itself. -/
def combineCore (addTransitions : Bool) (total : ℕ) :
    ℕ → List AudioFile → List OutItem
  | _, [] => []
  | i, .pause d sb _ :: rest =>
    if sb && (addTransitions && decide (0 < i) && decide (i < total - 1)) then
      .transition :: combineCore addTransitions total (i + 1) rest
    else
      .pause d :: combineCore addTransitions total (i + 1) rest
  | i, .speech spk _ _ :: rest =>
    .speech spk :: combineCore addTransitions total (i + 1) rest

/-- `AudioProcessor._combine_audio_segments`, as the sequence of items of the
returned combined buffer.  `intro`/`outro` tell whether the optional jingle
assets were found on disk. -/
def combine_audio_segments (addTransitions intro outro : Bool)
    (files : List AudioFile) : Except String (List OutItem) :=
  if files.isEmpty then .error "No audio files to combine"
  else
    let core := combineCore addTransitions files.length 0 files
    let withIntro := if intro then .jingle :: .pause 500 :: core else core
    .ok (if outro then withIntro ++ [.pause 500, .jingle] else withIntro)

/-- Does the list contain a `pause` item immediately followed by a
`transition` item? -/
def pauseThenTrans : List OutItem → Bool
  | .pause _ :: .transition :: _ => true
  | _ :: rest => pauseThenTrans rest
  | [] => false

/-! ## `VoiceManager.recommend_voices`

Rates and pitches are exact rationals (the Python floats only ever undergo
one addition here).  The two `random.uniform` draws made for the speaker at
index `i > 0` are modelled by the stream `draws`: `(draws i).1` is the value
returned for `random.uniform(-0.1, 0.1)` and `(draws i).2` the one for
`random.uniform(-1.0, 1.0)`. -/

inductive Gender where
  | MALE
  | FEMALE
  | NEUTRAL
deriving DecidableEq, Repr

def premiumVoices : Gender → List String
  | .MALE => ["en-US-Neural2-D", "en-US-Neural2-J", "en-US-Studio-O",
      "en-GB-Neural2-B", "en-AU-Neural2-B"]
  | .FEMALE => ["en-US-Neural2-F", "en-US-Neural2-G", "en-US-Neural2-E",
      "en-US-Neural2-C", "en-GB-Neural2-A", "en-AU-Neural2-A"]
  | .NEUTRAL => ["en-US-Neural2-A", "en-US-Neural2-C"]

def knownMaleNames : List String := ["alex", "jordan", "michael", "david", "james"]

def knownFemaleNames : List String := ["alice", "emma", "olivia", "sarah", "emily"]

/-- The default (no recognised preference) gender assignment: table lookup by
name, otherwise the opposite of the previously assigned gender (male for the
first speaker). -/
def autoGenders (prev : Option Gender) : List String → List Gender
  | [] => []
  | s :: rest =>
    let g :=
      if knownMaleNames.contains s.toLower then Gender.MALE
      else if knownFemaleNames.contains s.toLower then Gender.FEMALE
      else
        match prev with
        | none => Gender.MALE
        | some p => if p = Gender.MALE then Gender.FEMALE else Gender.MALE
    g :: autoGenders (some g) rest

def determineGenders (speakers : List String) (pref : Option String) : List Gender :=
  if pref = some "male" then List.replicate speakers.length Gender.MALE
  else if pref = some "female" then List.replicate speakers.length Gender.FEMALE
  else if pref = some "mixed" then
    if speakers.length = 2 then [Gender.MALE, Gender.FEMALE]
    else (List.range speakers.length).map
      (fun i => if i % 2 = 0 then Gender.MALE else Gender.FEMALE)
  else autoGenders none speakers

structure VoiceConfigQ where
  name : String
  language_code : String
  gender : Gender
  speaking_rate : ℚ
  pitch : ℚ
  volume_gain_db : ℚ
deriving DecidableEq, Repr

/-- The `for i, (speaker, gender) in enumerate(zip(speakers, genders))` loop
building the `voice_configs` dict, with `i` the running index. -/
def assignConfigs (draws : ℕ → ℚ × ℚ) :
    ℕ → List (String × Gender) → List (String × VoiceConfigQ)
  | _, [] => []
  | i, (spk, g) :: rest =>
    let voices := premiumVoices g
    (spk.toLower,
        { name := voices.getD (i % voices.length) ""
          language_code := "en-US"
          gender := g
          speaking_rate := 1 + (if 0 < i then (draws i).1 else 0)
          pitch := if 0 < i then (draws i).2 else 0
          volume_gain_db := 0 })
      :: assignConfigs draws (i + 1) rest

/-- `VoiceManager.recommend_voices`: the `voice_configs` dict as an
association list in insertion order, keyed by the lowered speaker id. -/
def recommend_voices (speakers : List String) (pref : Option String)
    (draws : ℕ → ℚ × ℚ) : List (String × VoiceConfigQ) :=
  if speakers.isEmpty then []
  else assignConfigs draws 0 (List.zip speakers (determineGenders speakers pref))

/-! ## Persistent records and job bodies (`app/tasks/podcast_tasks.py`)

The database rows the claims mention, with the fields they talk about.
`DB` is the committed state of one user's podcast world: the
`generation_tasks` rows, the one `podcasts` row (with its `podcast_scripts`
/ `podcast_audio` children collapsed to existence flags), and whether the
user row and its preferences exist.  Every mutation the job bodies make is
followed by a `db.session.commit()` on all paths (including the `except`
blocks), so tracking committed state only is exact. -/

structure TaskRec where
  task_id : String
  task_type : String
  status : String
  error_message : Option String
  progress : ℕ
deriving DecidableEq, Repr

structure PodcastRec where
  status : String
  error_message : Option String
  hasScript : Bool
  hasAudio : Bool
deriving DecidableEq, Repr

structure DB where
  tasks : List TaskRec
  podcast : Option PodcastRec
  userExists : Bool
  userPrefs : Bool
deriving DecidableEq, Repr

def findTask (db : DB) (tid : String) : Option TaskRec :=
  db.tasks.find? (fun t => t.task_id = tid)

def updateTask (db : DB) (tid : String) (f : TaskRec → TaskRec) : DB :=
  { db with tasks := db.tasks.map (fun t => if t.task_id = tid then f t else t) }

def setPodcast (db : DB) (f : PodcastRec → PodcastRec) : DB :=
  { db with podcast := db.podcast.map f }

/-- What the job body's caller observes: normal return, a re-raised
exception, or an exception recorded in the DB but swallowed
(`if not current_app.config.get("CELERY_TASK_EAGER_PROPAGATES", False): raise`). -/
inductive JobOutcome where
  | ok
  | raised (msg : String)
  | swallowed (msg : String)
deriving DecidableEq, Repr

/-- The shared `except Exception as e` boundary of both job bodies: if the
`task` local was bound, mark it failed with the error text; if the
`podcast_obj` local was bound, mark it failed with `podcastMsg` (equal to the
error text in the script job, prefixed in the audio job); commit; re-raise
exactly when `CELERY_TASK_EAGER_PROPAGATES` is unset. -/
def jobFail (db : DB) (tid : String) (taskBound podcastBound : Bool)
    (msg podcastMsg : String) (eagerPropagates : Bool) : DB × JobOutcome :=
  let db1 := if taskBound then
      updateTask db tid (fun t =>
        { t with status := "failed", error_message := some msg })
    else db
  let db2 := if podcastBound then
      setPodcast db1 (fun p =>
        { p with status := "failed", error_message := some podcastMsg })
    else db1
  (db2, if eagerPropagates then .swallowed msg else .raised msg)

/-- Success continuation of the script job once `papers` is known non-empty
and Gemini returned: persist the script, complete the script task, create the
child audio `GenerationTask` row in `queued` state (the Celery dispatch and
the celery-id bookkeeping don't touch the fields modelled here). -/
def scriptJobComplete (db : DB) (tid newAudioTaskId : String) : DB × JobOutcome :=
  let db1 := setPodcast db (fun p => { p with hasScript := true })
  let db2 := updateTask db1 tid (fun t =>
    { t with status := "completed", progress := 100 })
  let db3 := { db2 with tasks := db2.tasks ++
    [⟨newAudioTaskId, "audio_generation", "queued", none, 0⟩] }
  (db3, .ok)

/-- Papers are modelled by their ids.  `searchPapers` is the outcome of
`ArxivService.search_papers` under the preferences branch; `fetchById` is
`ArxivService.get_paper_by_id`, which returns `None` (never raises) on any
per-id fetch failure or not-found; `gemini` is
`GeminiService.generate_script` on the fetched papers. -/
def generate_podcast_script (db : DB) (tid : String)
    (usePreferences : Bool) (paperIds : Option (List String))
    (searchPapers : Except String (List String × ℕ))
    (fetchById : String → Option String)
    (gemini : List String → Except String Unit)
    (newAudioTaskId : String) (eagerPropagates : Bool) : DB × JobOutcome :=
  match findTask db tid with
  | none =>
    jobFail db tid false false ("Script generation task not found: " ++ tid)
      ("Script generation task not found: " ++ tid) eagerPropagates
  | some _ =>
    let db1 := updateTask db tid (fun t => { t with status := "processing" })
    match db1.podcast with
    | none =>
      jobFail db1 tid true false "Podcast or user not found for script generation."
        "Podcast or user not found for script generation." eagerPropagates
    | some _ =>
      if ¬ db1.userExists then
        jobFail db1 tid true true "Podcast or user not found for script generation."
          "Podcast or user not found for script generation." eagerPropagates
      else
        let db2 := setPodcast db1 (fun p => { p with status := "processing" })
        if usePreferences && db2.userPrefs then
          match searchPapers with
          | .error e => jobFail db2 tid true true e e eagerPropagates
          | .ok (papers, _) =>
            if papers.isEmpty then
              jobFail db2 tid true true
                "No papers found based on the provided criteria."
                "No papers found based on the provided criteria." eagerPropagates
            else
              match gemini papers with
              | .error e => jobFail db2 tid true true e e eagerPropagates
              | .ok _ => scriptJobComplete db2 tid newAudioTaskId
        else
          match paperIds with
          | some ids =>
            if ids.isEmpty then
              jobFail db2 tid true true
                "No paper source defined: use_preferences or paper_ids required."
                "No paper source defined: use_preferences or paper_ids required."
                eagerPropagates
            else
              let papers := ids.filterMap fetchById
              if papers.isEmpty then
                jobFail db2 tid true true
                  "No papers found based on the provided criteria."
                  "No papers found based on the provided criteria." eagerPropagates
              else
                match gemini papers with
                | .error e => jobFail db2 tid true true e e eagerPropagates
                | .ok _ => scriptJobComplete db2 tid newAudioTaskId
          | none =>
            jobFail db2 tid true true
              "No paper source defined: use_preferences or paper_ids required."
              "No paper source defined: use_preferences or paper_ids required."
              eagerPropagates

/-- `generate_podcast_audio`.  `tts` is the outcome of
`TTSService.generate_audio` on the podcast's script (duration of the MP3
bytes on success); `upload` is `StorageService.upload_audio` (the file URL
on success).  On any failure the parent podcast's message carries the
`"Audio generation failed: "` prefix. -/
def generate_podcast_audio (db : DB) (tid podcastId : String)
    (tts : Except String ℕ) (upload : Except String String)
    (eagerPropagates : Bool) : DB × JobOutcome :=
  match findTask db tid with
  | none =>
    jobFail db tid false false ("Audio generation task not found: " ++ tid)
      ("Audio generation task not found: " ++ tid) eagerPropagates
  | some _ =>
    let db1 := updateTask db tid (fun t => { t with status := "processing" })
    let scriptMissingMsg :=
      "Podcast (ID: " ++ podcastId ++ ") or its script not found for audio generation."
    match db1.podcast with
    | none =>
      jobFail db1 tid true false scriptMissingMsg
        ("Audio generation failed: " ++ scriptMissingMsg) eagerPropagates
    | some p =>
      if ¬ p.hasScript then
        jobFail db1 tid true true scriptMissingMsg
          ("Audio generation failed: " ++ scriptMissingMsg) eagerPropagates
      else
        match tts with
        | .error e =>
          jobFail db1 tid true true e ("Audio generation failed: " ++ e)
            eagerPropagates
        | .ok _bytes =>
          match upload with
          | .error e =>
            jobFail db1 tid true true e ("Audio generation failed: " ++ e)
              eagerPropagates
          | .ok _url =>
            let db2 := setPodcast db1 (fun q =>
              { q with hasAudio := true, status := "completed", error_message := none })
            let db3 := updateTask db2 tid (fun t =>
              { t with status := "completed", progress := 100 })
            (db3, .ok)

/-! ## Task API endpoints (`app/api/tasks.py`) -/

/-- Response of `POST /tasks/<task_id>/cancel`. -/
inductive CancelResp where
  | notFound
  | badRequest (msg : String)
  | nameError
deriving DecidableEq, Repr

/-- `cancel_task`.  For a task in `queued`/`processing` state the handler
executes `task.status = GenerationTask.STATUS_CANCELLED` on the in-session
object and then evaluates `datetime.utcnow()`; `app/api/tasks.py` never
imports `datetime`, so this raises `NameError`.  The handler's own
`except` block then evaluates `db.session.rollback()`, and `db` is not
imported either, so a `NameError` escapes to the framework (a 500 response).
No `db.session.commit()` is reachable on this path, hence the committed
state is returned unchanged. -/
def cancel_task (db : DB) (tid : String) : DB × CancelResp :=
  match findTask db tid with
  | none => (db, .notFound)
  | some t =>
    if t.status = "queued" ∨ t.status = "processing" then (db, .nameError)
    else (db, .badRequest "Task cannot be cancelled")

/-- `get_task_status`'s view of the task row: the Celery-state sync applies
only when the stored status is `queued` or `processing` (and the handler
never commits).  `celery` is the Celery `AsyncResult` state and result
string, when the task's metadata names a celery task id. -/
def get_task_status (db : DB) (tid : String)
    (celery : Option (String × String)) : Option TaskRec :=
  match findTask db tid with
  | none => none
  | some t =>
    if t.status = "queued" ∨ t.status = "processing" then
      match celery with
      | none => some t
      | some (st, res) =>
        if st = "PENDING" then some { t with status := "queued" }
        else if st = "STARTED" then some { t with status := "processing" }
        else if st = "SUCCESS" then some { t with status := "completed" }
        else if st = "FAILURE" then
          some { t with status := "failed", error_message := some res }
        else some t
    else some t

/-! ## Helper lemmas on the DB model -/

theorem findTask_updateTask (db : DB) (tid tid' : String) (f : TaskRec → TaskRec)
    (hf : ∀ t, (f t).task_id = t.task_id) :
    findTask (updateTask db tid f) tid' =
      if tid = tid' then (findTask db tid').map f else findTask db tid' := by
  unfold findTask updateTask
  induction db.tasks with
  | nil => simp
  | cons t ts ih =>
    by_cases ht : t.task_id = tid'
    · by_cases htt : t.task_id = tid
      · have h1 : tid = tid' := htt ▸ ht
        simp only [List.map_cons, if_pos htt, List.find?]
        rw [hf t]
        simp [ht, h1]
      · have h1 : ¬ tid = tid' := fun h => htt (h ▸ ht)
        simp only [List.map_cons, if_neg htt, List.find?]
        simp [ht, h1]
    · by_cases htt : t.task_id = tid
      · simp only [List.map_cons, if_pos htt, List.find?]
        rw [hf t]
        simp only [ht, decide_eq_true_eq, if_neg, not_false_eq_true]
        simpa [ht] using ih
      · simp only [List.map_cons, if_neg htt, List.find?]
        simpa [ht] using ih

theorem tasks_ids_updateTask (db : DB) (tid : String) (f : TaskRec → TaskRec)
    (hf : ∀ t, (f t).task_id = t.task_id) :
    (updateTask db tid f).tasks.map TaskRec.task_id = db.tasks.map TaskRec.task_id := by
  unfold updateTask
  simp only [List.map_map]
  refine List.map_congr_left (fun t _ => ?_)
  by_cases htt : t.task_id = tid <;> simp [htt, hf t]

theorem podcast_updateTask (db : DB) (tid : String) (f : TaskRec → TaskRec) :
    (updateTask db tid f).podcast = db.podcast := rfl

theorem findTask_setPodcast (db : DB) (g : PodcastRec → PodcastRec) (tid : String) :
    findTask (setPodcast db g) tid = findTask db tid := rfl

/-! ## Claims -/

/-- Auxiliary: the retry loop under an always-rate-limited operation makes
exactly `fuel` further calls and ends in the fixed exhaustion error. -/
theorem synthLoop_allApiError (errs : ℕ → String) :
    ∀ fuel calls,
      synthLoop (fun n => .apiError (errs n)) calls fuel =
        (calls + fuel, .error exhaustedMsg) := by
  intro fuel
  induction fuel with
  | zero => intro calls; simp [synthLoop]
  | succ n ih =>
    intro calls
    rw [synthLoop, ih (calls + 1)]
    ring_nf

/-- C3, counterexample: `TTSClient.synthesize_speech` with an operation that
is rate-limited on every invocation stops after exactly `MAX_RETRIES = 3`
calls, but then raises the fixed generic message `"Failed to synthesize
speech after maximum retries"`: two runs whose underlying errors differ
produce literally identical raised errors, and the raised text does not even
contain the digit 4 of the underlying `"HTTP 429 ..."` message, so the
raised error is not a typed error carrying the last underlying error. -/
theorem retriesExhausted_counterexample :
    synthesize_speech (fun _ => .apiError "HTTP 429 Too Many Requests") =
        (3, .error "Failed to synthesize speech after maximum retries") ∧
      synthesize_speech (fun _ => .apiError "HTTP 429 Too Many Requests") =
        synthesize_speech (fun _ => .apiError "connection reset by peer") ∧
      ("Failed to synthesize speech after maximum retries".data.all
        (fun c => c ≠ '4')) = true := by
  refine ⟨?_, ?_, by decide⟩
  · rw [synthesize_speech, synthLoop_allApiError (fun _ => "HTTP 429 Too Many Requests")]
    rfl
  · rw [synthesize_speech, synthesize_speech,
      synthLoop_allApiError (fun _ => "HTTP 429 Too Many Requests"),
      synthLoop_allApiError (fun _ => "connection reset by peer")]

/-- C3, amended: for every bound `N` on the loop and every operation that is
rate-limited on every invocation, the retry loop of
`TTSClient.synthesize_speech` invokes the operation exactly `N` times
(bounded, never infinitely) and then raises; the raised error is the fixed
generic exhaustion message, which does not carry the last underlying error.
With the class constant `MAX_RETRIES`, the method makes exactly 3 calls. -/
theorem retry_bounded_then_generic_error (N : ℕ) (errs : ℕ → String) :
    synthLoop (fun n => .apiError (errs n)) 0 N = (N, .error exhaustedMsg) ∧
      synthesize_speech (fun n => .apiError (errs n)) = (3, .error exhaustedMsg) := by
  constructor
  · rw [synthLoop_allApiError]
    simp
  · rw [synthesize_speech, synthLoop_allApiError]
    rfl

/-- C8: terminal `GenerationTask` states are sticky as far as the handlers
can see, but honouring a cancellation is impossible: a cancellation request
against a task in a terminal state (`completed`, `failed`, `cancelled`) is
rejected with the 400 `"Task cannot be cancelled"` response and the state is
unchanged; a request against a `queued`/`processing` task hits the unbound
names `datetime`/`db` in `app/api/tasks.py`, so it raises `NameError` and
the committed state is also unchanged — the task is never set to `cancelled`
and the podcast never gets a cancelled status.  `get_task_status` leaves any
terminal task untouched. -/
theorem cancel_never_cancels (db : DB) (tid : String) (t : TaskRec)
    (hfind : findTask db tid = some t) :
    ((t.status = "completed" ∨ t.status = "failed" ∨ t.status = "cancelled") →
      cancel_task db tid = (db, .badRequest "Task cannot be cancelled")) ∧
    ((t.status = "queued" ∨ t.status = "processing") →
      cancel_task db tid = (db, .nameError)) ∧
    (∀ celery, (t.status = "completed" ∨ t.status = "failed" ∨ t.status = "cancelled") →
      get_task_status db tid celery = some t) := by
  refine ⟨fun hterm => ?_, fun hlive => ?_, fun celery hterm => ?_⟩
  · have hne : ¬ (t.status = "queued" ∨ t.status = "processing") := by
      rcases hterm with h | h | h <;> rw [h] <;> decide
    simp [cancel_task, hfind, hne]
  · simp [cancel_task, hfind, hlive]
  · have hne : ¬ (t.status = "queued" ∨ t.status = "processing") := by
      rcases hterm with h | h | h <;> rw [h] <;> decide
    simp [get_task_status, hfind, hne]

/-- Witness for `cancel_never_cancels` at a concrete database: one completed
task rejected untouched, one queued task answered with the `NameError`
crash and no state change. -/
theorem cancel_never_cancels_witness :
    (cancel_task ⟨[⟨"t1", "script_generation", "completed", none, 100⟩],
        none, true, true⟩ "t1" =
      (⟨[⟨"t1", "script_generation", "completed", none, 100⟩], none, true, true⟩,
        .badRequest "Task cannot be cancelled")) ∧
    (cancel_task ⟨[⟨"t2", "audio_generation", "queued", none, 0⟩],
        none, true, true⟩ "t2" =
      (⟨[⟨"t2", "audio_generation", "queued", none, 0⟩], none, true, true⟩,
        .nameError)) := by
  constructor
  · exact (cancel_never_cancels _ "t1" ⟨"t1", "script_generation", "completed", none, 100⟩
      (by decide)).1 (Or.inl rfl)
  · exact (cancel_never_cancels _ "t2" ⟨"t2", "audio_generation", "queued", none, 0⟩
      (by decide)).2.1 (Or.inl rfl)

theorem autoGenders_length (l : List String) :
    ∀ prev, (autoGenders prev l).length = l.length := by
  induction l with
  | nil => intro prev; rfl
  | cons s rest ih => intro prev; simp [autoGenders, ih]

theorem determineGenders_length (speakers : List String) (pref : Option String) :
    (determineGenders speakers pref).length = speakers.length := by
  unfold determineGenders
  split_ifs with h1 h2 h3 h4
  · simp
  · simp
  · exact h4.symm
  · simp
  · exact autoGenders_length speakers none

theorem assignConfigs_map_name (d1 d2 : ℕ → ℚ × ℚ) (l : List (String × Gender)) :
    ∀ i, (assignConfigs d1 i l).map (fun p => (p.1, p.2.name, p.2.gender)) =
      (assignConfigs d2 i l).map (fun p => (p.1, p.2.name, p.2.gender)) := by
  induction l with
  | nil => intro i; rfl
  | cons p rest ih =>
    intro i
    obtain ⟨spk, g⟩ := p
    simp only [assignConfigs, List.map_cons, ih (i + 1)]

/-- C5, counterexample: `VoiceManager.recommend_voices` is not deterministic.
With speakers `["alex", "sam"]` and preference `"male"`, two invocations
whose `random.uniform` draws differ return different bindings: the second
speaker's speaking rate and pitch follow the random draws, not a function of
its index. -/
theorem voice_assignment_random_counterexample :
    recommend_voices ["alex", "sam"] (some "male") (fun _ => (0, 0)) ≠
      recommend_voices ["alex", "sam"] (some "male") (fun _ => (1/20, 1/2)) := by
  intro h
  have e1 : (recommend_voices ["alex", "sam"] (some "male")
      (fun _ => (0, 0))).map (fun p => p.2.pitch) = [0, 0] := rfl
  have e2 : (recommend_voices ["alex", "sam"] (some "male")
      (fun _ => (1/20, 1/2))).map (fun p => p.2.pitch) = [0, 1/2] := rfl
  rw [h, e2] at e1
  norm_num at e1

/-- C5, amended: the voice *names* (and genders and lowered speaker keys)
returned by `VoiceManager.recommend_voices` are a deterministic function of
the speaker list and the gender preference — they do not depend on the
random draws — and the first-discovered speaker is always left at the
baseline speaking rate `1.0` and pitch `0.0`; only the rate/pitch of
speakers at index `> 0` depend on the `random.uniform` draws (which is what
the counterexample exhibits), so repeated invocations can differ there. -/
theorem voice_names_deterministic_first_baseline :
    (∀ (speakers : List String) (pref : Option String) (d1 d2 : ℕ → ℚ × ℚ),
      (recommend_voices speakers pref d1).map (fun p => (p.1, p.2.name, p.2.gender)) =
        (recommend_voices speakers pref d2).map (fun p => (p.1, p.2.name, p.2.gender))) ∧
    (∀ (s : String) (rest : List String) (pref : Option String) (d : ℕ → ℚ × ℚ),
      ∃ vc, (recommend_voices (s :: rest) pref d).head? = some (s.toLower, vc) ∧
        vc.speaking_rate = 1 ∧ vc.pitch = 0) := by
  constructor
  · intro speakers pref d1 d2
    by_cases h : speakers.isEmpty
    · simp [recommend_voices, h]
    · simp only [recommend_voices, h, if_false, ite_false]
      exact assignConfigs_map_name d1 d2 _ 0
  · intro s rest pref d
    obtain ⟨g, gs, hg⟩ := List.exists_of_length_succ (determineGenders (s :: rest) pref)
      (by rw [determineGenders_length]; rfl)
    refine ⟨{ name := (premiumVoices g).getD (0 % (premiumVoices g).length) ""
              language_code := "en-US"
              gender := g
              speaking_rate := 1 + (if (0 : ℕ) < 0 then (d 0).1 else 0)
              pitch := if (0 : ℕ) < 0 then (d 0).2 else 0
              volume_gain_db := 0 }, ?_, ?_, ?_⟩
    · simp [recommend_voices, hg, assignConfigs]
    · norm_num
    · norm_num

/-! ## Blank-segment handling (C9) -/

/-- A segment whose text is empty or whitespace-only
(`if not text.strip(): continue` in `parse_script`). -/
def blankB (sg : Segment) : Bool := pyStrip sg.text = ""

def Sectn.dropBlank (sec : Sectn) : Sectn :=
  { sec with segments := sec.segments.filter (fun sg => !blankB sg) }

def Script.dropBlank (s : Script) : Script :=
  { s with sections := s.sections.map Sectn.dropBlank }

theorem segItems_dropBlank (enh : String → String → String) (ssml : Bool)
    (t : String) (sgs : List Segment) :
    segItems enh ssml t (sgs.filter (fun sg => !blankB sg)) = segItems enh ssml t sgs := by
  induction sgs with
  | nil => rfl
  | cons sg rest ih =>
    simp only [blankB] at ih
    by_cases hb : pyStrip sg.text = ""
    · simp [segItems, blankB, hb, List.filter_cons, ih]
    · simp [segItems, blankB, hb, List.filter_cons, ih]

theorem parseSecs_dropBlank (enh : String → String → String) (ssml : Bool) :
    ∀ (secs : List Sectn) (acc : List PlanItem),
      parseSecs enh ssml acc (secs.map Sectn.dropBlank) = parseSecs enh ssml acc secs := by
  intro secs
  induction secs with
  | nil => intro acc; rfl
  | cons sec rest ih =>
    intro acc
    simp only [List.map_cons, parseSecs, Sectn.dropBlank, segItems_dropBlank]
    exact ih _

theorem gatherDurs_filter_keeps (synth : String → String → Except String ℕ)
    (segs : List Segment) :
    gatherDurs synth (segs.filter Segment.keeps) = gatherDurs synth segs := by
  induction segs with
  | nil => rfl
  | cons sg rest ih =>
    by_cases h1 : sg.text = ""
    · simp [gatherDurs, Segment.keeps, h1, List.filter_cons, ih]
    · by_cases h2 : clean_text sg.text = ""
      · simp [gatherDurs, Segment.keeps, h1, h2, List.filter_cons, ih]
      · simp [gatherDurs, Segment.keeps, h1, h2, List.filter_cons, ih]

/-- C9: blank segments are dropped entirely during plan construction.
(1) `parse_script` gives the same plan whether or not segments whose text
strips to empty are removed beforehand — so such a segment contributes no
speech item, no pause item and no zero-length item; (2) similarly in
`TTSService.generate_audio`, where a segment is dropped when its text is
empty or the markup-stripped text is empty; (3) the scenario: the
one-section script with segments `x:"Hello."` and `y:""` yields a plan with
exactly one speech item and one trailing pause, no leading transition. -/
theorem blank_segments_dropped :
    (∀ (enh : String → String → String) (ssml : Bool) (script : Script),
      parse_script enh ssml (Script.dropBlank script) = parse_script enh ssml script) ∧
    (∀ (synth : String → String → Except String ℕ) (segs : List Segment),
      gatherDurs synth (segs.filter Segment.keeps) = gatherDurs synth segs) ∧
    (∀ (enh : String → String → String) (ssml : Bool),
      (parse_script enh ssml ⟨"T", [⟨"A", [⟨"x", "Hello."⟩, ⟨"y", ""⟩]⟩]⟩).2 =
        [.speech ("x".toLower) (if ssml then enh "Hello." ("x".toLower) else "Hello.")
            ssml "A",
          .pause 500 false ""]) := by
  refine ⟨?_, gatherDurs_filter_keeps, ?_⟩
  · intro enh ssml script
    unfold parse_script Script.dropBlank
    simp only [parseSecs_dropBlank]
  · intro enh ssml
    have h1 : ¬ (pyStrip "Hello." = "") := by decide
    have h2 : pyStrip "" = "" := rfl
    simp [parse_script, parseSecs, segItems, h1, h2]

/-! ## Section transitions (C2) -/

/-- C2, counterexample: for the two-section script with one segment each,
the assembled output *does* contain a pause item immediately followed by a
transition item: the transition replaces only the 1 s section-break pause,
while the 0.5 s inter-segment pause after the last segment of the first
section is kept right before it. -/
theorem pause_then_transition_counterexample :
    combine_audio_segments true false false
        (process_segments (fun _ _ _ => some 1000) (fun _ => true)
          (parse_script (fun t _ => t) false
            ⟨"T", [⟨"A", [⟨"a", "Hello."⟩]⟩, ⟨"B", [⟨"b", "World."⟩]⟩]⟩).2) =
      .ok [.speech ("a".toLower), .pause 500, .transition,
        .speech ("b".toLower), .pause 500] ∧
    pauseThenTrans [.speech ("a".toLower), .pause 500, .transition,
        .speech ("b".toLower), .pause 500] = true := by
  exact ⟨rfl, rfl⟩

/-- C2, amended to the spec's own scenario shape: for every script of two
sections with one segment each, both segments non-blank (in Python's
`str.strip()` sense) and synthesis succeeding, the flattened-and-combined
output places exactly one transition at the section boundary; the transition
replaces the 1 s section-break pause inserted by `parse_script`, but the
0.5 s inter-segment pause that follows the last segment of the preceding
section is retained, so the assembled output is
speech, pause, transition, speech, pause — the pause immediately preceding
the transition included.  (The per-boundary statement does not extend to
arbitrary many-section scripts: a trailing section with only blank segments
leaves its 1 s break pause at index `len - 1`, where
`_combine_audio_segments` keeps the pause and emits no transition.) -/
theorem section_transition_replaces_break_pause
    (enh : String → String → String) (ssml : Bool)
    (t t1 t2 s1 x1 s2 x2 : String)
    (synth : String → String → Bool → Option ℕ) (hv : String → Bool)
    (d1 d2 : ℕ)
    (hx1 : ¬ (pyStrip x1 = "")) (hx2 : ¬ (pyStrip x2 = ""))
    (hv1 : hv s1.toLower = true) (hv2 : hv s2.toLower = true)
    (hs1 : synth (if ssml then enh x1 s1.toLower else x1) s1.toLower ssml = some d1)
    (hs2 : synth (if ssml then enh x2 s2.toLower else x2) s2.toLower ssml = some d2) :
    combine_audio_segments true false false
        (process_segments synth hv
          (parse_script enh ssml ⟨t, [⟨t1, [⟨s1, x1⟩]⟩, ⟨t2, [⟨s2, x2⟩]⟩]⟩).2) =
      .ok [.speech s1.toLower, .pause 500, .transition,
        .speech s2.toLower, .pause 500] := by
  simp only [parse_script, parseSecs, segItems, hx1, hx2, if_false, ite_false,
    List.isEmpty_nil, List.nil_append, List.cons_append, ite_true,
    List.isEmpty_cons, List.append_nil]
  simp [process_segments, hv1, hv2, hs1, hs2, combine_audio_segments, combineCore]

theorem section_transition_replaces_break_pause_witness :
    combine_audio_segments true false false
        (process_segments (fun _ _ _ => some 1000) (fun _ => true)
          (parse_script (fun t _ => t) false
            ⟨"T", [⟨"A", [⟨"a", "Hello."⟩]⟩, ⟨"B", [⟨"b", "World."⟩]⟩]⟩).2) =
      .ok [.speech ("a".toLower), .pause 500, .transition,
        .speech ("b".toLower), .pause 500] :=
  section_transition_replaces_break_pause (fun t _ => t) false
    "T" "A" "B" "a" "Hello." "b" "World." (fun _ _ _ => some 1000) (fun _ => true)
    1000 1000 (by decide) (by decide) rfl rfl rfl rfl

/-! ## Segment-failure handling during synthesis (C6) -/

/-- C6, counterexample: a render in which *zero* speech segments succeed does
not necessarily fail.  For the one-segment script whose only synthesis call
fails, the plan's speech item is skipped but its 0.5 s pause still produces
an audio file, so `_combine_audio_segments` receives a non-empty file list
and returns pause-only audio instead of raising the no-audio error. -/
theorem zero_speech_render_succeeds_counterexample :
    process_segments (fun _ _ _ => none) (fun _ => true)
        (parse_script (fun t _ => t) false ⟨"T", [⟨"A", [⟨"x", "Hi."⟩]⟩]⟩).2 =
      [.pause 500 false ""] ∧
    combine_audio_segments true false false [.pause 500 false ""] =
      .ok [.pause 500] := by
  exact ⟨rfl, rfl⟩

/-- C6, amended: a speech segment whose synthesis fails after its retries is
skipped on its own — `process_segments` continues with the remaining items —
and `_combine_audio_segments` raises the explicit
`"No audio files to combine"` error exactly when *no* plan item (speech or
pause) produced an audio file; in particular a render where all speech fails
but pause files exist proceeds (the counterexample above). -/
theorem segment_failures_skipped_render_fails_iff_no_files :
    (∀ (addT intro outro : Bool) (files : List AudioFile),
      combine_audio_segments addT intro outro files =
          .error "No audio files to combine" ↔ files = []) ∧
    (∀ (synth : String → String → Bool → Option ℕ) (hv : String → Bool)
        (spk txt : String) (ssml : Bool) (sec : String) (rest : List PlanItem),
      synth txt spk ssml = none →
        process_segments synth hv (.speech spk txt ssml sec :: rest) =
          process_segments synth hv rest) := by
  constructor
  · intro addT intro outro files
    cases files with
    | nil => simp [combine_audio_segments]
    | cons f fs => simp [combine_audio_segments]
  · intro synth hv spk txt ssml sec rest hfail
    by_cases h : hv spk = true
    · simp [process_segments, h, hfail]
    · simp [process_segments, h]

theorem segment_failures_skipped_witness :
    process_segments (fun _ _ _ => none) (fun _ => true)
        [.speech "a" "Hi." false "A"] = [] :=
  (segment_failures_skipped_render_fails_iff_no_files.2
    (fun _ _ _ => none) (fun _ => true) "a" "Hi." false "A" [] rfl).trans rfl

/-! ## Non-empty, monotone audio assembly (C10) -/

theorem allSegments_snocSegment (s : Script) (sg : Segment) :
    (s.snocSegment sg).allSegments = s.allSegments ++ [sg] := by
  simp [Script.snocSegment, Script.allSegments]

theorem gatherDurs_ne_nil (synth : String → String → Except String ℕ) :
    ∀ (l : List Segment) (ds : List ℕ),
      gatherDurs synth l = .ok ds → (∃ x ∈ l, Segment.keeps x = true) → ds ≠ [] := by
  intro l
  induction l with
  | nil => rintro ds _ ⟨x, hx, _⟩; exact absurd hx (List.not_mem_nil x)
  | cons sg rest ih =>
    intro ds hds hk
    by_cases h1 : sg.text = ""
    · simp only [gatherDurs, h1, if_true, ite_true] at hds
      obtain ⟨x, hx, hkx⟩ := hk
      rcases List.mem_cons.mp hx with hx | hx
      · subst hx
        simp [Segment.keeps, h1] at hkx
      · exact ih ds hds ⟨x, hx, hkx⟩
    · by_cases h2 : clean_text sg.text = ""
      · simp only [gatherDurs, h1, h2, if_false, if_true, ite_false, ite_true] at hds
        obtain ⟨x, hx, hkx⟩ := hk
        rcases List.mem_cons.mp hx with hx | hx
        · subst hx
          simp [Segment.keeps, h1, h2] at hkx
        · exact ih ds hds ⟨x, hx, hkx⟩
      · simp only [gatherDurs, h1, h2, if_false, ite_false] at hds
        cases hsy : synth (clean_text sg.text) sg.speaker with
        | error e => rw [hsy] at hds; exact absurd hds (by simp)
        | ok d =>
          rw [hsy] at hds
          cases hre : gatherDurs synth rest with
          | error e => rw [hre] at hds; exact absurd hds (by simp)
          | ok ds' =>
            rw [hre] at hds
            cases hds
            simp

theorem gatherDurs_mem_ge (synth : String → String → Except String ℕ) :
    ∀ (l : List Segment) (ds : List ℕ),
      gatherDurs synth l = .ok ds → ∀ x ∈ ds, 500 ≤ x := by
  intro l
  induction l with
  | nil =>
    intro ds hds
    cases hds
    intro x hx
    exact absurd hx (List.not_mem_nil x)
  | cons sg rest ih =>
    intro ds hds
    by_cases h1 : sg.text = ""
    · simp only [gatherDurs, h1, if_true, ite_true] at hds
      exact ih ds hds
    · by_cases h2 : clean_text sg.text = ""
      · simp only [gatherDurs, h1, h2, if_false, if_true, ite_false, ite_true] at hds
        exact ih ds hds
      · simp only [gatherDurs, h1, h2, if_false, ite_false] at hds
        cases hsy : synth (clean_text sg.text) sg.speaker with
        | error e => rw [hsy] at hds; exact absurd hds (by simp)
        | ok d =>
          rw [hsy] at hds
          cases hre : gatherDurs synth rest with
          | error e => rw [hre] at hds; exact absurd hds (by simp)
          | ok ds' =>
            rw [hre] at hds
            cases hds
            intro x hx
            rcases List.mem_cons.mp hx with hx | hx
            · subst hx; omega
            · exact ih ds' hre x hx

/-- C10: for every script with at least one segment surviving sanitization
(the spec's "non-empty segment": non-blank and non-empty after markup
stripping, §4.2 step 2) and a synthesizer that succeeds,
`TTSService.generate_audio` produces a non-empty output buffer (strictly
positive duration), and appending an additional segment never shortens the
assembled output: duration is monotonically non-decreasing in the segments. -/
theorem audio_output_nonempty_monotone
    (synth : String → String → Except String ℕ) (script : Script) (sg : Segment)
    (htotal : ∀ t s, ∃ d, synth t s = .ok d)
    (hkeep : ∃ x ∈ script.allSegments, Segment.keeps x = true) :
    ∃ d d', generate_audio synth script = .ok d ∧
      generate_audio synth (script.snocSegment sg) = .ok d' ∧
      0 < d ∧ d ≤ d' := by
  obtain ⟨ds, hds⟩ := gatherDurs_ok_of_total synth htotal script.allSegments
  obtain ⟨ds2, hds2⟩ := gatherDurs_ok_of_total synth htotal [sg]
  have hsnoc : gatherDurs synth (script.snocSegment sg).allSegments = .ok (ds ++ ds2) := by
    rw [allSegments_snocSegment, gatherDurs_append, hds, hds2]
    rfl
  have hne := gatherDurs_ne_nil synth script.allSegments ds hds hkeep
  cases ds with
  | nil => exact absurd rfl hne
  | cons a as =>
    have ha : 500 ≤ a :=
      gatherDurs_mem_ge synth script.allSegments (a :: as) hds a (List.mem_cons_self a as)
    refine ⟨(a :: as).sum, (a :: as ++ ds2).sum, ?_, ?_, ?_, ?_⟩
    · rw [generate_audio, hds]
    · rw [generate_audio, hsnoc]
      rfl
    · have : 0 < a := by omega
      simp only [List.sum_cons]
      omega
    · simp only [List.cons_append, List.sum_cons, List.sum_append]
      omega

/-- Witness for `audio_output_nonempty_monotone` at a concrete script and
synthesizer. -/
theorem audio_output_nonempty_monotone_witness :
    ∃ d d', generate_audio (fun _ _ => .ok 1000)
        ⟨"T", [⟨"A", [⟨"x", "Hello."⟩]⟩]⟩ = .ok d ∧
      generate_audio (fun _ _ => .ok 1000)
        (Script.snocSegment ⟨"T", [⟨"A", [⟨"x", "Hello."⟩]⟩]⟩ ⟨"y", "World."⟩) = .ok d' ∧
      0 < d ∧ d ≤ d' :=
  audio_output_nonempty_monotone (fun _ _ => .ok 1000)
    ⟨"T", [⟨"A", [⟨"x", "Hello."⟩]⟩]⟩ ⟨"y", "World."⟩
    (fun _ _ => ⟨1000, rfl⟩)
    ⟨⟨"x", "Hello."⟩, by decide, by decide⟩

/-! ## Observables of the shared job-failure boundary -/

theorem jobFail_snd (db : DB) (tid : String) (tb pb : Bool) (m pm : String)
    (flag : Bool) :
    (jobFail db tid tb pb m pm flag).2 =
      if flag then JobOutcome.swallowed m else JobOutcome.raised m := rfl

theorem jobFail_findTask_self (db : DB) (tid : String) (m pm : String) (flag : Bool) :
    findTask (jobFail db tid true true m pm flag).1 tid =
      (findTask db tid).map
        (fun t => { t with status := "failed", error_message := some m }) := by
  have h := findTask_updateTask db tid tid
    (fun t => { t with status := "failed", error_message := some m }) (fun _ => rfl)
  simpa [jobFail, findTask_setPodcast] using h

theorem jobFail_findTask_other (db : DB) (tid tid' : String) (m pm : String)
    (flag : Bool) (hne : ¬ tid = tid') :
    findTask (jobFail db tid true true m pm flag).1 tid' = findTask db tid' := by
  have h := findTask_updateTask db tid tid'
    (fun t => { t with status := "failed", error_message := some m }) (fun _ => rfl)
  simpa [jobFail, findTask_setPodcast, hne] using h

theorem jobFail_podcast (db : DB) (tid : String) (m pm : String) (flag : Bool) :
    (jobFail db tid true true m pm flag).1.podcast =
      db.podcast.map
        (fun p => { p with status := "failed", error_message := some pm }) := rfl

theorem jobFail_tasks_ids (db : DB) (tid : String) (m pm : String) (flag : Bool) :
    (jobFail db tid true true m pm flag).1.tasks.map TaskRec.task_id =
      db.tasks.map TaskRec.task_id := by
  have h := tasks_ids_updateTask db tid
    (fun t => { t with status := "failed", error_message := some m }) (fun _ => rfl)
  simpa [jobFail, setPodcast] using h

theorem scriptJobComplete_snd (db : DB) (tid naid : String) :
    (scriptJobComplete db tid naid).2 = .ok := rfl

theorem scriptJobComplete_tasks_ids (db : DB) (tid naid : String) :
    (scriptJobComplete db tid naid).1.tasks.map TaskRec.task_id =
      db.tasks.map TaskRec.task_id ++ [naid] := by
  have h := tasks_ids_updateTask (setPodcast db (fun p => { p with hasScript := true }))
    tid (fun t => { t with status := "completed", progress := 100 }) (fun _ => rfl)
  simp only [scriptJobComplete, List.map_append, h]
  simp [setPodcast]

/-! ## The job boundary (C1) -/

/-- C1, counterexample: with the propagation flag *unset* (normal operation,
`CELERY_TASK_EAGER_PROPAGATES` absent/false), both job bodies *do* re-raise
the caught exception out of the job boundary — the opposite of the claimed
direction (the code suppresses the exception only when the flag is set, for
eager test harnesses). -/
theorem reraise_when_flag_unset_counterexample :
    (generate_podcast_script
        ⟨[⟨"s1", "script_generation", "queued", none, 0⟩],
          some ⟨"pending", none, false, false⟩, true, true⟩
        "s1" false (some ["p1"]) (.ok ([], 0)) (fun _ => none) (fun _ => .ok ())
        "na" false).2 =
      JobOutcome.raised "No papers found based on the provided criteria." ∧
    (generate_podcast_audio
        ⟨[⟨"a1", "audio_generation", "queued", none, 0⟩],
          some ⟨"processing", none, true, false⟩, true, true⟩
        "a1" "7" (.error "boom") (.ok "u") false).2 =
      JobOutcome.raised "boom" := by
  exact ⟨rfl, rfl⟩

/-- C1, amended: on an unhandled exception inside either job body, the
handler catches it at the job boundary, records the error message on the
`GenerationTask` and marks it failed, and marks the parent `Podcast` failed;
the exception is then **re-raised when the propagation flag
(`CELERY_TASK_EAGER_PROPAGATES`) is unset** — i.e. in normal operation —
and suppressed exactly when the test-harness flag is set (the inverse of
the claimed direction). -/
theorem job_boundary_failure_containment :
    (∀ (db : DB) (tid pid e : String) (up : Except String String) (flag : Bool)
        (t : TaskRec) (p : PodcastRec),
      findTask db tid = some t → db.podcast = some p → p.hasScript = true →
      (generate_podcast_audio db tid pid (.error e) up flag).2 =
          (if flag then JobOutcome.swallowed e else JobOutcome.raised e) ∧
        (findTask (generate_podcast_audio db tid pid (.error e) up flag).1 tid).map
            (fun t' => (t'.status, t'.error_message)) = some ("failed", some e) ∧
        (generate_podcast_audio db tid pid (.error e) up flag).1.podcast =
          some { p with status := "failed"
                        error_message := some ("Audio generation failed: " ++ e) }) ∧
    (∀ (db : DB) (tid e : String) (fetch : String → Option String)
        (gem : List String → Except String Unit) (naid : String) (flag : Bool)
        (t : TaskRec) (p : PodcastRec),
      findTask db tid = some t → db.podcast = some p → db.userExists = true →
        db.userPrefs = true →
      (generate_podcast_script db tid true none (.error e) fetch gem naid flag).2 =
          (if flag then JobOutcome.swallowed e else JobOutcome.raised e) ∧
        (findTask (generate_podcast_script db tid true none (.error e) fetch gem
              naid flag).1 tid).map
            (fun t' => (t'.status, t'.error_message)) = some ("failed", some e) ∧
        (generate_podcast_script db tid true none (.error e) fetch gem naid flag).1.podcast =
          some { p with status := "failed", error_message := some e }) := by
  constructor
  · intro db tid pid e up flag t p hfind hpod hscript
    obtain ⟨tasks, pod, ue, upf⟩ := db
    simp only [DB.podcast] at hpod
    subst hpod
    have h1 : generate_podcast_audio ⟨tasks, some p, ue, upf⟩ tid pid (.error e) up flag =
        jobFail (updateTask ⟨tasks, some p, ue, upf⟩ tid
            (fun t' => { t' with status := "processing" }))
          tid true true e ("Audio generation failed: " ++ e) flag := by
      simp only [generate_podcast_audio, hfind, updateTask, hscript]
      simp
    rw [h1]
    refine ⟨jobFail_snd _ _ _ _ _ _ _, ?_, ?_⟩
    · rw [jobFail_findTask_self, findTask_updateTask _ tid tid
        (fun t' => { t' with status := "processing" }) (fun _ => rfl)]
      simp [hfind]
    · rw [jobFail_podcast]
      rfl
  · intro db tid e fetch gem naid flag t p hfind hpod hue hupf
    obtain ⟨tasks, pod, ue, upf⟩ := db
    simp only [DB.podcast] at hpod
    simp only [DB.userExists] at hue
    simp only [DB.userPrefs] at hupf
    subst hpod
    subst hue
    subst hupf
    have h1 : generate_podcast_script ⟨tasks, some p, true, true⟩ tid true none
          (.error e) fetch gem naid flag =
        jobFail (setPodcast (updateTask ⟨tasks, some p, true, true⟩ tid
              (fun t' => { t' with status := "processing" }))
            (fun q => { q with status := "processing" }))
          tid true true e e flag := by
      simp only [generate_podcast_script, hfind, updateTask, setPodcast]
      simp
    rw [h1]
    refine ⟨jobFail_snd _ _ _ _ _ _ _, ?_, ?_⟩
    · rw [jobFail_findTask_self, findTask_setPodcast,
        findTask_updateTask _ tid tid
          (fun t' => { t' with status := "processing" }) (fun _ => rfl)]
      simp [hfind]
    · rw [jobFail_podcast]
      rfl

/-- Witness for `job_boundary_failure_containment`, exercising both job
kinds at a concrete database, once with the flag set and once unset. -/
theorem job_boundary_failure_containment_witness :
    ((generate_podcast_audio
        ⟨[⟨"a1", "audio_generation", "queued", none, 0⟩],
          some ⟨"processing", none, true, false⟩, true, true⟩
        "a1" "7" (.error "boom") (.ok "u") true).2 =
      (if true then JobOutcome.swallowed "boom" else JobOutcome.raised "boom")) ∧
    ((generate_podcast_script
        ⟨[⟨"s1", "script_generation", "queued", none, 0⟩],
          some ⟨"pending", none, false, false⟩, true, true⟩
        "s1" true none (.error "rate limited") (fun _ => none) (fun _ => .ok ())
        "na" false).2 =
      (if false then JobOutcome.swallowed "rate limited"
        else JobOutcome.raised "rate limited")) := by
  constructor
  · exact (job_boundary_failure_containment.1
      ⟨[⟨"a1", "audio_generation", "queued", none, 0⟩],
        some ⟨"processing", none, true, false⟩, true, true⟩
      "a1" "7" "boom" (.ok "u") true
      ⟨"a1", "audio_generation", "queued", none, 0⟩
      ⟨"processing", none, true, false⟩ (by decide) rfl rfl).1
  · exact (job_boundary_failure_containment.2
      ⟨[⟨"s1", "script_generation", "queued", none, 0⟩],
        some ⟨"pending", none, false, false⟩, true, true⟩
      "s1" "rate limited" (fun _ => none) (fun _ => .ok ()) "na" false
      ⟨"s1", "script_generation", "queued", none, 0⟩
      ⟨"pending", none, false, false⟩ (by decide) rfl rfl rfl).1

/-! ## Audio-job failure propagation to the Podcast (C4) -/

/-- C4, counterexample: when the audio job fails, the `GenerationTask` and
the parent `Podcast` both end `failed`, but their error texts are *not*
identical: the task stores the raw error while the podcast stores it behind
the `"Audio generation failed: "` prefix. -/
theorem audio_failure_error_text_counterexample :
    ((findTask (generate_podcast_audio
        ⟨[⟨"s1", "script_generation", "completed", none, 100⟩,
            ⟨"a1", "audio_generation", "queued", none, 0⟩],
          some ⟨"processing", none, true, false⟩, true, true⟩
        "a1" "7" (.error "boom") (.ok "u") true).1 "a1").bind
          TaskRec.error_message = some "boom") ∧
    ((generate_podcast_audio
        ⟨[⟨"s1", "script_generation", "completed", none, 100⟩,
            ⟨"a1", "audio_generation", "queued", none, 0⟩],
          some ⟨"processing", none, true, false⟩, true, true⟩
        "a1" "7" (.error "boom") (.ok "u") true).1.podcast.bind
          PodcastRec.error_message = some "Audio generation failed: boom") ∧
    ¬ (some "boom" = some "Audio generation failed: boom") := by
  exact ⟨rfl, rfl, by decide⟩

/-- C4, amended: an audio job's failure sets both the audio `GenerationTask`
and the parent `Podcast` to `failed` with *matching* error text — the
podcast's text is the task's prefixed with `"Audio generation failed: "`,
not identical to it — and a script task already `completed` (from the
successful script job) is left `completed` while the podcast ends failed. -/
theorem audio_failure_marks_task_and_podcast
    (db : DB) (tidA tidS pid e : String) (up : Except String String) (flag : Bool)
    (tA tS : TaskRec) (p : PodcastRec)
    (hfindA : findTask db tidA = some tA) (hpod : db.podcast = some p)
    (hscript : p.hasScript = true)
    (hfindS : findTask db tidS = some tS) (hts : tS.status = "completed")
    (hne : ¬ tidA = tidS) :
    (findTask (generate_podcast_audio db tidA pid (.error e) up flag).1 tidA).map
        (fun t' => (t'.status, t'.error_message)) = some ("failed", some e) ∧
      (generate_podcast_audio db tidA pid (.error e) up flag).1.podcast =
        some { p with status := "failed"
                      error_message := some ("Audio generation failed: " ++ e) } ∧
      (findTask (generate_podcast_audio db tidA pid (.error e) up flag).1 tidS).map
        TaskRec.status = some "completed" := by
  obtain ⟨tasks, pod, ue, upf⟩ := db
  simp only [DB.podcast] at hpod
  subst hpod
  have h1 : generate_podcast_audio ⟨tasks, some p, ue, upf⟩ tidA pid (.error e) up flag =
      jobFail (updateTask ⟨tasks, some p, ue, upf⟩ tidA
          (fun t' => { t' with status := "processing" }))
        tidA true true e ("Audio generation failed: " ++ e) flag := by
    simp only [generate_podcast_audio, hfindA, updateTask, hscript]
    simp
  rw [h1]
  refine ⟨?_, ?_, ?_⟩
  · rw [jobFail_findTask_self, findTask_updateTask _ tidA tidA
      (fun t' => { t' with status := "processing" }) (fun _ => rfl)]
    simp [hfindA]
  · rw [jobFail_podcast]
    rfl
  · rw [jobFail_findTask_other _ _ _ _ _ _ hne, findTask_updateTask _ tidA tidS
      (fun t' => { t' with status := "processing" }) (fun _ => rfl)]
    simp [hne, hfindS, hts]

/-- Witness for `audio_failure_marks_task_and_podcast` at a concrete
database with a completed script task and a failing audio job. -/
theorem audio_failure_marks_task_and_podcast_witness :
    (findTask (generate_podcast_audio
        ⟨[⟨"s1", "script_generation", "completed", none, 100⟩,
            ⟨"a1", "audio_generation", "queued", none, 0⟩],
          some ⟨"processing", none, true, false⟩, true, true⟩
        "a1" "7" (.error "boom") (.ok "u") false).1 "a1").map
        (fun t' => (t'.status, t'.error_message)) = some ("failed", some "boom") ∧
      (generate_podcast_audio
        ⟨[⟨"s1", "script_generation", "completed", none, 100⟩,
            ⟨"a1", "audio_generation", "queued", none, 0⟩],
          some ⟨"processing", none, true, false⟩, true, true⟩
        "a1" "7" (.error "boom") (.ok "u") false).1.podcast =
        some { status := "failed"
               error_message := some ("Audio generation failed: " ++ "boom")
               hasScript := true
               hasAudio := false } ∧
      (findTask (generate_podcast_audio
        ⟨[⟨"s1", "script_generation", "completed", none, 100⟩,
            ⟨"a1", "audio_generation", "queued", none, 0⟩],
          some ⟨"processing", none, true, false⟩, true, true⟩
        "a1" "7" (.error "boom") (.ok "u") false).1 "s1").map
        TaskRec.status = some "completed" :=
  audio_failure_marks_task_and_podcast
    ⟨[⟨"s1", "script_generation", "completed", none, 100⟩,
        ⟨"a1", "audio_generation", "queued", none, 0⟩],
      some ⟨"processing", none, true, false⟩, true, true⟩
    "a1" "s1" "7" "boom" (.ok "u") false
    ⟨"a1", "audio_generation", "queued", none, 0⟩
    ⟨"s1", "script_generation", "completed", none, 100⟩
    ⟨"processing", none, true, false⟩
    (by decide) rfl rfl (by decide) rfl (by decide)

/-! ## Explicit-id paper fetching in the script job (C7) -/

/-- C7: in the explicit-id branch of the script job, per-id fetch failures
and not-found results are tolerated — `get_paper_by_id` returns `None` and
the id is simply dropped, the remaining ids being kept in order — and,
everything else in place, the job fails exactly when zero papers remain:
with zero fetched papers the script task ends `failed` and *no* audio task
record is created (the task-id column is unchanged), while with at least one
fetched paper (and the composer succeeding) the job completes and appends
exactly the one child audio task. -/
theorem explicit_id_fetch_tolerated_zero_papers_fatal
    (db : DB) (tid : String) (t : TaskRec) (ids : List String)
    (sp : Except String (List String × ℕ)) (fetch : String → Option String)
    (gem : List String → Except String Unit) (naid : String) (flag : Bool)
    (p : PodcastRec)
    (hfind : findTask db tid = some t) (hpod : db.podcast = some p)
    (hue : db.userExists = true) (hids : ids ≠ []) :
    (ids.filterMap fetch = [] →
      (generate_podcast_script db tid false (some ids) sp fetch gem naid flag).2 ≠
          JobOutcome.ok ∧
        (findTask (generate_podcast_script db tid false (some ids) sp fetch gem
            naid flag).1 tid).map TaskRec.status = some "failed" ∧
        (generate_podcast_script db tid false (some ids) sp fetch gem
            naid flag).1.tasks.map TaskRec.task_id = db.tasks.map TaskRec.task_id) ∧
    (∀ u, ¬ ids.filterMap fetch = [] → gem (ids.filterMap fetch) = .ok u →
      (generate_podcast_script db tid false (some ids) sp fetch gem naid flag).2 =
          JobOutcome.ok ∧
        (generate_podcast_script db tid false (some ids) sp fetch gem
            naid flag).1.tasks.map TaskRec.task_id =
          db.tasks.map TaskRec.task_id ++ [naid]) := by
  obtain ⟨a, l, rfl⟩ := List.exists_cons_of_ne_nil hids
  obtain ⟨tasks, pod, ue, upf⟩ := db
  simp only [DB.podcast] at hpod
  simp only [DB.userExists] at hue
  subst hpod
  subst hue
  constructor
  · intro hz
    have h1 : generate_podcast_script ⟨tasks, some p, true, upf⟩ tid false
          (some (a :: l)) sp fetch gem naid flag =
        jobFail (setPodcast (updateTask ⟨tasks, some p, true, upf⟩ tid
              (fun t' => { t' with status := "processing" }))
            (fun q => { q with status := "processing" }))
          tid true true "No papers found based on the provided criteria."
          "No papers found based on the provided criteria." flag := by
      simp only [generate_podcast_script, hfind, updateTask, setPodcast, hz]
      simp
    rw [h1]
    refine ⟨?_, ?_, ?_⟩
    · rw [jobFail_snd]
      cases flag <;> simp
    · rw [jobFail_findTask_self, findTask_setPodcast, findTask_updateTask _ tid tid
        (fun t' => { t' with status := "processing" }) (fun _ => rfl)]
      simp [hfind]
    · rw [jobFail_tasks_ids]
      exact tasks_ids_updateTask _ tid
        (fun t' => { t' with status := "processing" }) (fun _ => rfl)
  · intro u hnz hgem
    cases hpp : (a :: l).filterMap fetch with
    | nil => exact absurd hpp hnz
    | cons q qs =>
      rw [hpp] at hgem
      have h1 : generate_podcast_script ⟨tasks, some p, true, upf⟩ tid false
            (some (a :: l)) sp fetch gem naid flag =
          scriptJobComplete (setPodcast (updateTask ⟨tasks, some p, true, upf⟩ tid
                (fun t' => { t' with status := "processing" }))
              (fun q' => { q' with status := "processing" }))
            tid naid := by
        simp only [generate_podcast_script, hfind, updateTask, setPodcast, hpp, hgem]
        simp
      rw [h1]
      refine ⟨scriptJobComplete_snd _ _ _, ?_⟩
      rw [scriptJobComplete_tasks_ids]
      congr 1
      exact tasks_ids_updateTask _ tid
        (fun t' => { t' with status := "processing" }) (fun _ => rfl)

/-- Witness for `explicit_id_fetch_tolerated_zero_papers_fatal`: of the two
requested ids, `p1` fails to fetch and is dropped, `p2` is kept; the job
completes and creates exactly the child audio task `a1`. -/
theorem explicit_id_fetch_tolerated_witness :
    (generate_podcast_script
        ⟨[⟨"s1", "script_generation", "queued", none, 0⟩],
          some ⟨"pending", none, false, false⟩, true, true⟩
        "s1" false (some ["p1", "p2"]) (.ok ([], 0))
        (fun i => if i = "p1" then none else some i) (fun _ => .ok ())
        "a1" true).2 = JobOutcome.ok ∧
      (generate_podcast_script
        ⟨[⟨"s1", "script_generation", "queued", none, 0⟩],
          some ⟨"pending", none, false, false⟩, true, true⟩
        "s1" false (some ["p1", "p2"]) (.ok ([], 0))
        (fun i => if i = "p1" then none else some i) (fun _ => .ok ())
        "a1" true).1.tasks.map TaskRec.task_id =
        [⟨"s1", "script_generation", "queued", none, 0⟩].map TaskRec.task_id ++ ["a1"] :=
  (explicit_id_fetch_tolerated_zero_papers_fatal
    ⟨[⟨"s1", "script_generation", "queued", none, 0⟩],
      some ⟨"pending", none, false, false⟩, true, true⟩
    "s1" ⟨"s1", "script_generation", "queued", none, 0⟩ ["p1", "p2"]
    (.ok ([], 0)) (fun i => if i = "p1" then none else some i) (fun _ => .ok ())
    "a1" true ⟨"pending", none, false, false⟩
    (by decide) rfl rfl (by decide)).2 () (by decide) rfl

end Fionntan
